import Mathlib

/-!
Verification of the research-orchestration engine (deepsearch pipeline).

This file gives a shallow embedding of the decision-layer components of the
repository and proves the testable properties stated for them:

* `models/data_models.py` — `ChannelCandidate` with its locality/total scoring.
* `pipeline/pipeline_core/cost_engine.py` — `SourceStats` and `CostEngine`
  (patience budget, stop conditions, effective priority, result reporting).
* `pipeline/pipeline_core/graph_scorer.py` — the SQLite-backed graph store,
  embedded as explicit tables with the same dedup keys and upsert semantics.
* `pipeline/pipeline_core/strategy_planner.py` — step trees and
  `flatten_queries` (depth-first walk, placeholder substitution, stable
  priority-descending sort).
* `pipeline/pipeline.py` — the control skeleton of one category wave,
  with the I/O collaborators (search, triage, fetch, extraction, assembly,
  verification, checkpoints) supplied as oracle inputs.

Modelling conventions:
* Python floats are modelled as `ℚ` (exact arithmetic); `round(x, 3)` is
  modelled as exact half-to-even rounding to 3 decimals on `ℚ`.
* Python ints are `ℤ` (or `ℕ` for values that are counts in every call site).
* Python dicts used as keyed stores are association lists that preserve
  insertion order, matching Python dict semantics.
* Wall-clock timestamps (`time.time()`), logging output and file I/O carry no
  information used by any property below and are omitted.
* `math.exp` appears only inside `predict_roi`; it is threaded through as an
  abstract parameter `decay` standing for `fun d => Real.exp (-(1/20) * d)`,
  so every theorem about the engine holds for the actual transcendental decay.
-/

/-- Exact model of Python `round`-to-integer: round half to even. -/
def roundHalfEven (x : ℚ) : ℤ :=
  let f := Int.floor x
  let r := x - f
  if r < 1/2 then f
  else if 1/2 < r then f + 1
  else if f % 2 = 0 then f else f + 1

/-- Model of Python `round(x, 3)` on ideal (rational) reals. -/
def roundTo3 (x : ℚ) : ℚ := ((roundHalfEven (x * 1000) : ℤ) : ℚ) / 1000

/-- Python `needle in hay` on strings (substring containment). -/
def strContains (hay needle : String) : Bool :=
  decide (List.IsInfix needle.toList hay.toList)

/-!
## models/data_models.py
-/

/-- `models/data_models.py` `Fragment` (timestamp omitted, see header). -/
structure Fragment where
  fragment_type : String := ""
  value : String := ""
  source_url : String := ""
  source_type : String := ""
  context : String := ""
  search_query : String := ""
  search_wave : ℕ := 1
  deriving DecidableEq

/-- One element of `ChannelCandidate.city_evidence`. In the source this is a
heterogeneous list; `compute_city_score` only looks at whether the element is
a dict and at its (possibly missing, defaulting to `""`) `source_url`. -/
structure CityEvidence where
  isDict : Bool := true
  source_url : String := ""
  quote : String := ""
  deriving DecidableEq

/-- `models/data_models.py` `ChannelCandidate` (timestamp-free fields). -/
structure ChannelCandidate where
  candidate_id : String := ""
  channel_name : String := ""
  channel_url : String := ""
  alternative_names : List String := []
  target_city : String := ""
  target_state : String := ""
  target_category : String := ""
  fragments : List Fragment := []
  fragment_count : ℕ := 0
  independent_sources : ℕ := 0
  city_evidence : List CityEvidence := []
  city_score : ℚ := 0
  category_evidence : List String := []
  category_score : ℚ := 0
  yt_verified : Bool := false
  yt_exists : Bool := false
  yt_real_name : String := ""
  yt_subscribers_text : String := ""
  yt_subscribers_count : ℤ := 0
  yt_subscriber_match : Bool := false
  yt_last_upload_text : String := ""
  yt_last_upload_recent : Bool := false
  yt_description : String := ""
  total_score : ℚ := 0
  verified : Bool := false
  rejection_reasons : List String := []
  deriving DecidableEq

/-- `ChannelCandidate.compute_city_score`:
`srcs = set(e["source_url"] for dict e in city_evidence with truthy source_url)`;
score is `0` on no evidence, `0.15` on evidence without sources, otherwise
`min(0.95, 0.3 + len(srcs)*0.2)`. -/
def ChannelCandidate.compute_city_score (c : ChannelCandidate) : ChannelCandidate :=
  if c.city_evidence.isEmpty then { c with city_score := 0 }
  else
    let srcs := ((c.city_evidence.filter
        (fun e => e.isDict && e.source_url != "")).map (fun e => e.source_url)).dedup
    if srcs.isEmpty then { c with city_score := 3/20 }
    else { c with city_score := min (19/20) (3/10 + (srcs.length : ℚ) * (1/5)) }

/-- `ChannelCandidate.compute_total_score`: recompute the city score, force the
total to `0` when the platform-existence flag is down, otherwise the weighted
sum `0.30*city + 0.15*category + 0.25*[subs match] + 0.20*[recent upload]
+ 0.10*min(1, independent_sources/3)` rounded to 3 decimals. -/
def ChannelCandidate.compute_total_score (c0 : ChannelCandidate) : ChannelCandidate :=
  let c := c0.compute_city_score
  if !c.yt_exists then { c with total_score := 0 }
  else
    { c with total_score := roundTo3 (
        3/10 * c.city_score + 3/20 * c.category_score
        + 1/4 * (if c.yt_subscriber_match then 1 else 0)
        + 1/5 * (if c.yt_last_upload_recent then 1 else 0)
        + 1/10 * min 1 ((c.independent_sources : ℚ) / 3)) }

/-!
## pipeline/pipeline_core/cost_engine.py
-/

/-- `cost_engine.py` `SourceStats` (created_at omitted, see header). -/
structure SourceStats where
  name : String
  priority : ℚ := 50
  attempts : ℕ := 0
  hits : ℕ := 0
  misses : ℕ := 0
  total_cost : ℚ := 0
  total_value : ℚ := 0
  patience : ℤ := 0
  exhausted : Bool := false
  last_hit_at : ℕ := 0
  deriving DecidableEq

/-- `SourceStats.hit_rate = hits / max(1, attempts)`. -/
def SourceStats.hit_rate (s : SourceStats) : ℚ :=
  (s.hits : ℚ) / ((max 1 s.attempts : ℕ) : ℚ)

/-- `SourceStats.roi = total_value / max(0.01, total_cost)`. -/
def SourceStats.roi (s : SourceStats) : ℚ :=
  s.total_value / max (1/100) s.total_cost

/-- `SourceStats.drought = attempts - last_hit_at`. -/
def SourceStats.drought (s : SourceStats) : ℤ :=
  (s.attempts : ℤ) - (s.last_hit_at : ℤ)

/-- `SourceStats.effective_priority`: `0` when exhausted, the raw initial
priority when no attempt was made yet, otherwise
`max(0, 0.3*priority + 0.5*(hit_rate*100) - min(30, 1.5*drought) + min(20, 5*roi))`. -/
def SourceStats.effective_priority (s : SourceStats) : ℚ :=
  if s.exhausted then 0
  else if s.attempts = 0 then s.priority
  else
    max 0 (s.priority * (3/10) + s.hit_rate * 100 * (1/2)
      - min 30 ((s.drought : ℚ) * (3/2)) + min 20 (s.roi * 5))

/-- `cost_engine.py` `ActionLog` (timestamp omitted). -/
structure ActionLog where
  source : String
  query : String := ""
  found : ℕ := 0
  cost : ℚ := 1
  value : ℚ := 0
  roi_predicted : ℚ := 0
  decision : String := ""

/-- `cost_engine.py` `CostEngine` state. `sources` is the insertion-ordered
dict of source name to stats; `stopped`/`stop_reason` are the private
`_stopped`/`_stop_reason` fields; `started_at` is omitted. -/
structure CostEngine where
  target_count : ℕ := 10
  patience_initial : ℤ := 30
  patience_recharge : ℤ := 20
  patience_drain : ℤ := 1
  epsilon : ℚ := 1/10
  min_roi : ℚ := 1/20
  global_budget : ℕ := 500
  sources : List (String × SourceStats) := []
  total_found : ℕ := 0
  total_actions : ℕ := 0
  action_log : List ActionLog := []
  stopped : Bool := false
  stop_reason : String := ""

/-- The engine produced by `CostEngine.__init__` with default arguments. -/
def CostEngine.init : CostEngine := {}

/-- `CostEngine.add_source`: register a fresh source unless the name exists. -/
def CostEngine.add_source (e : CostEngine) (name : String) (priority : ℚ) : CostEngine :=
  if (e.sources.lookup name).isSome then e
  else
    { e with sources := e.sources ++
        [(name, { name := name, priority := priority, patience := e.patience_initial })] }

/-- In-place update of one entry of the sources dict (Python mutates the
`SourceStats` object stored under the key; insertion order is unchanged). -/
def updateSource (l : List (String × SourceStats)) (name : String) (s : SourceStats) :
    List (String × SourceStats) :=
  l.map (fun p => if p.1 = name then (p.1, s) else p)

/-- `CostEngine.predict_roi`. `decay` stands for the transcendental
`fun d => Real.exp (-(1/20) * d)` applied to the drought (see header). -/
def CostEngine.predict_roi (decay : ℤ → ℚ) (e : CostEngine) (source_name : String)
    (estimated_cost : ℚ) : ℚ :=
  match e.sources.lookup source_name with
  | none => 0
  | some src =>
    if src.exhausted then 0
    else
      let prior := src.priority / 100
      let p_success :=
        if src.attempts = 0 then prior
        else
          let alpha := min 1 ((src.attempts : ℚ) / 10)
          (1 - alpha) * prior + alpha * src.hit_rate
      let p_adjusted := p_success * decay src.drought
      p_adjusted / max (1/100) estimated_cost

/-- `CostEngine._stop`: record the reason and latch the stopped flag. -/
def CostEngine.stopWith (e : CostEngine) (reason detail : String) : CostEngine :=
  { e with stopped := true, stop_reason := reason ++ ": " ++ detail }

/-- `CostEngine.should_stop`: returns the decision and the (possibly latched)
state. The three stop conditions are checked in source order: target reached,
budget exhausted, all sources exhausted. -/
def CostEngine.should_stop (e : CostEngine) : Bool × CostEngine :=
  if e.stopped then (true, e)
  else if e.target_count ≤ e.total_found then
    (true, e.stopWith "target_reached"
      ("Found " ++ toString e.total_found ++ "/" ++ toString e.target_count ++ " targets"))
  else if e.global_budget ≤ e.total_actions then
    (true, e.stopWith "budget_exhausted"
      ("Used " ++ toString e.total_actions ++ "/" ++ toString e.global_budget ++ " actions"))
  else if (e.sources.filter (fun p => !p.2.exhausted)).isEmpty && !e.sources.isEmpty then
    (true, e.stopWith "all_sources_exhausted"
      ("All " ++ toString e.sources.length ++ " sources exhausted"))
  else (false, e)

/-- `CostEngine.force_stop`. -/
def CostEngine.force_stop (e : CostEngine) : CostEngine :=
  e.stopWith "manual" "Stopped by user"

/-- `CostEngine.report_result`: feedback for one action. An unknown source
name returns the engine unchanged. A hit (found > 0) recharges patience (capped
at twice the initial budget) and accumulates value (defaulting to `found * 10`);
a miss drains patience and exhausts the source once patience reaches 0.
The action log records the predicted ROI of the source after the update. -/
def CostEngine.report_result (decay : ℤ → ℚ) (e : CostEngine) (source_name : String)
    (found : ℕ) (cost : ℚ) (value : ℚ) (query : String) : CostEngine :=
  match e.sources.lookup source_name with
  | none => e
  | some src0 =>
    let value := if 0 < found ∧ value = 0 then (found : ℚ) * 10 else value
    let src1 := { src0 with attempts := src0.attempts + 1, total_cost := src0.total_cost + cost }
    if 0 < found then
      let src2 := { src1 with
        hits := src1.hits + found,
        total_value := src1.total_value + value,
        patience := min (e.patience_initial * 2) (src1.patience + e.patience_recharge),
        last_hit_at := src1.attempts }
      let e1 := { e with
        sources := updateSource e.sources source_name src2,
        total_actions := e.total_actions + 1,
        total_found := e.total_found + found }
      let roi := e1.predict_roi decay source_name cost
      { e1 with action_log := e1.action_log ++
          [{ source := source_name, query := query, found := found, cost := cost,
             value := value, roi_predicted := roi, decision := "hit" }] }
    else
      let src2 := { src1 with misses := src1.misses + 1, patience := src1.patience - e.patience_drain }
      let sd : SourceStats × String :=
        if src2.patience ≤ 0 then ({ src2 with exhausted := true, patience := 0 }, "exhausted")
        else (src2, "miss")
      let e1 := { e with
        sources := updateSource e.sources source_name sd.1,
        total_actions := e.total_actions + 1 }
      let roi := e1.predict_roi decay source_name cost
      { e1 with action_log := e1.action_log ++
          [{ source := source_name, query := query, found := found, cost := cost,
             value := value, roi_predicted := roi, decision := sd.2 }] }

/-- `k` consecutive miss reports (`found=0, cost=1, value=0`) on one source. -/
def CostEngine.reportMisses (decay : ℤ → ℚ) (e : CostEngine) (name : String) : ℕ → CostEngine
  | 0 => e
  | k + 1 => (CostEngine.reportMisses decay e name k).report_result decay name 0 1 0 ""

/-!
## pipeline/pipeline_core/graph_scorer.py

The SQLite store is embedded as explicit tables (lists of rows) plus the
AUTOINCREMENT counters. `INSERT OR REPLACE` on a uniquely-keyed table is
modelled as delete-conflicting-rows-then-append, which is SQLite's semantics;
all reads of those tables are exact-key lookups, so row position is never
observed. Timestamp columns (`created_at`, `updated_at`, `scanned_at`,
`computed_at`) are omitted. JSON-serialised payload columns (`metadata`,
`keywords`, `external_links`, `raw_data`, and the `details` breakdown) are
carried as opaque values.
-/

/-- Row of the `entities` table. -/
structure EntityRow where
  id : ℕ
  name : String
  kind : String := "person"
  subkind : String := ""
  city : String := ""
  state : String := ""
  country : String := ""
  institution : String := ""
  year : ℤ := 0
  source_url : String := ""
  source_type : String := ""
  status : String := "found"
  metadata : String := "\x7b\x7d"
  deriving DecidableEq

/-- Row of the `targets` table. -/
structure TargetRow where
  id : ℕ
  entity_id : ℕ := 0
  platform : String := "youtube"
  url : String
  name : String := ""
  description : String := ""
  followers : ℤ := 0
  last_activity : String := ""
  is_active : ℤ := 0
  keywords : String := "[]"
  location_detected : ℤ := 0
  topic_detected : ℤ := 0
  is_creator : ℤ := 0
  external_links : String := "[]"
  raw_data : String := "\x7b\x7d"
  deriving DecidableEq

/-- Row of the `criteria` table. -/
structure CriterionRow where
  id : ℕ
  name : String
  label : String := ""
  description : String := ""
  points : ℤ := 0
  category : String := "default"
  sort_order : ℕ := 0
  deriving DecidableEq

/-- Row of the `scores` table. The surrogate `id` column is never read
(the table is keyed by its UNIQUE(target_id, criterion_name) constraint),
so it is not carried. -/
structure ScoreRow where
  target_id : ℕ
  criterion_name : String
  met : ℤ := 0
  points_awarded : ℤ := 0
  evidence : String := ""
  deriving DecidableEq

/-- One entry of the per-criterion `details` breakdown built by
`compute_score` (`{"label","max","awarded","met","evidence"}`). -/
structure ScoreDetail where
  label : String
  max : ℤ
  awarded : ℤ
  met : Bool
  evidence : String
  deriving DecidableEq

/-- Row of the `score_totals` table (PRIMARY KEY target_id). -/
structure ScoreTotalRow where
  target_id : ℕ
  total : ℤ := 0
  max_possible : ℤ := 0
  validated : ℤ := 0
  threshold : ℤ := 60
  details : List (String × ScoreDetail) := []
  deriving DecidableEq

/-- Row of the `tasks` table (timestamps omitted). -/
structure TaskRow where
  id : ℕ
  type : String
  target_type : String := ""
  entity_id : ℕ := 0
  target_id : ℕ := 0
  query : String := ""
  status : String := "pending"
  priority : ℤ := 5
  result : String := "\x7b\x7d"
  error : String := ""
  deriving DecidableEq

/-- Row of the `logs` dedup table (timestamp omitted). -/
structure LogRow where
  action : String
  key : String
  details : String := ""
  deriving DecidableEq

/-- The whole store owned by a `GraphScorer` instance. The `*_seq` fields are
the AUTOINCREMENT counters of the respective tables (SQLite hands out
`lastrowid` values 1, 2, ...). -/
structure GraphScorer where
  entities : List EntityRow := []
  entity_seq : ℕ := 1
  targets : List TargetRow := []
  target_seq : ℕ := 1
  criteria : List CriterionRow := []
  crit_seq : ℕ := 1
  scores : List ScoreRow := []
  score_totals : List ScoreTotalRow := []
  tasks : List TaskRow := []
  task_seq : ℕ := 1
  logs : List LogRow := []
  config : List (String × String) := []

/-- A freshly initialised (empty) store, as built by `_init_db`. -/
def GraphScorer.empty : GraphScorer := {}

/-- `GraphScorer.set_config`: `INSERT OR REPLACE INTO config(key,value)`. -/
def GraphScorer.set_config (g : GraphScorer) (key value : String) : GraphScorer :=
  { g with config := (g.config.filter (fun p => p.1 != key)) ++ [(key, value)] }

/-- `GraphScorer.get_config` with a default. -/
def GraphScorer.get_config (g : GraphScorer) (key default : String) : String :=
  ((g.config.find? (fun p => p.1 == key)).map (fun p => p.2)).getD default

/-- The keyword-argument dict accepted by `configure_criteria` for one
criterion (`.get` defaults become `Option` fields; `label` defaults to the
criterion's name). -/
structure CriterionSpec where
  name : String
  label : Option String := none
  description : Option String := none
  points : Option ℤ := none
  category : Option String := none
  deriving DecidableEq

/-- `GraphScorer.configure_criteria`: `DELETE FROM criteria`, insert the new
rows with `sort_order` = position, store the threshold in `config`. -/
def GraphScorer.configure_criteria (g : GraphScorer) (criteria : List CriterionSpec)
    (threshold : ℤ) : GraphScorer :=
  let rows := criteria.enum.map (fun p =>
    ({ id := g.crit_seq + p.1, name := p.2.name, label := p.2.label.getD p.2.name,
       description := p.2.description.getD "", points := p.2.points.getD 0,
       category := p.2.category.getD "default", sort_order := p.1 } : CriterionRow))
  let g1 := { g with criteria := rows, crit_seq := g.crit_seq + criteria.length }
  g1.set_config "threshold" (toString threshold)

/-- `GraphScorer.get_threshold` (`int(get_config("threshold","60"))`). The
stored value is always produced by `toString` on an integer, so the lenient
`toInt?.getD` parse agrees with Python's `int()` on every reachable state. -/
def GraphScorer.get_threshold (g : GraphScorer) : ℤ :=
  ((g.get_config "threshold" "60").toInt?).getD 60

/-- Keyword arguments of `add_entity` (each `.get` default made explicit).
The `metadata` field carries the already-serialised JSON payload. -/
structure EntityKw where
  subkind : String := ""
  city : String := ""
  state : String := ""
  country : String := ""
  institution : String := ""
  year : ℤ := 0
  source_url : String := ""
  source_type : String := ""
  status : String := "found"
  metadata : String := "\x7b\x7d"
  deriving DecidableEq

/-- `GraphScorer.add_entity`: dedup by `(name, city)` — return the existing
row's id when found, otherwise insert a fresh row. -/
def GraphScorer.add_entity (g : GraphScorer) (name : String) (kind : String)
    (kw : EntityKw) : ℕ × GraphScorer :=
  match g.entities.find? (fun e => e.name == name && e.city == kw.city) with
  | some e => (e.id, g)
  | none =>
    let row : EntityRow :=
      { id := g.entity_seq, name := name, kind := kind, subkind := kw.subkind,
        city := kw.city, state := kw.state, country := kw.country,
        institution := kw.institution, year := kw.year, source_url := kw.source_url,
        source_type := kw.source_type, status := kw.status, metadata := kw.metadata }
    (g.entity_seq, { g with entities := g.entities ++ [row], entity_seq := g.entity_seq + 1 })

/-- Keyword arguments of `add_target` (defaults made explicit; the JSON
columns carry the serialised payloads). -/
structure TargetKw where
  name : String := ""
  description : String := ""
  followers : ℤ := 0
  last_activity : String := ""
  is_active : Bool := false
  keywords : String := "[]"
  location_detected : Bool := false
  topic_detected : Bool := false
  is_creator : Bool := false
  external_links : String := "[]"
  raw_data : String := "\x7b\x7d"
  deriving DecidableEq

/-- `GraphScorer.add_target`: dedup by URL. On an existing URL, backfill the
entity link (`UPDATE targets SET entity_id=? WHERE id=? AND entity_id=0`,
only attempted when the supplied `entity_id` is truthy) and return the
existing id; otherwise insert a fresh row. -/
def GraphScorer.add_target (g : GraphScorer) (url : String) (entity_id : ℕ)
    (platform : String) (kw : TargetKw) : ℕ × GraphScorer :=
  match g.targets.find? (fun t => t.url == url) with
  | some t =>
    let g1 :=
      if entity_id ≠ 0 then
        { g with targets := g.targets.map (fun r =>
            if r.id = t.id ∧ r.entity_id = 0 then { r with entity_id := entity_id } else r) }
      else g
    (t.id, g1)
  | none =>
    let row : TargetRow :=
      { id := g.target_seq, entity_id := entity_id, platform := platform, url := url,
        name := kw.name, description := kw.description, followers := kw.followers,
        last_activity := kw.last_activity, is_active := if kw.is_active then 1 else 0,
        keywords := kw.keywords,
        location_detected := if kw.location_detected then 1 else 0,
        topic_detected := if kw.topic_detected then 1 else 0,
        is_creator := if kw.is_creator then 1 else 0,
        external_links := kw.external_links, raw_data := kw.raw_data }
    (g.target_seq, { g with targets := g.targets ++ [row], target_seq := g.target_seq + 1 })

/-- Exact-key lookup in the `scores` table (UNIQUE(target_id, criterion_name)). -/
def findScore (scores : List ScoreRow) (target_id : ℕ) (criterion_name : String) :
    Option ScoreRow :=
  scores.find? (fun s => s.target_id == target_id && s.criterion_name == criterion_name)

/-- `GraphScorer.set_criterion`: look the criterion up by name (0 points when
unknown or not met), then `INSERT OR REPLACE` the score row. -/
def GraphScorer.set_criterion (g : GraphScorer) (target_id : ℕ) (criterion_name : String)
    (met : Bool) (evidence : String) : GraphScorer :=
  let pts : ℤ :=
    match g.criteria.find? (fun cr => cr.name == criterion_name) with
    | some cr => if met then cr.points else 0
    | none => 0
  { g with scores :=
      (g.scores.filter (fun s =>
        !(s.target_id == target_id && s.criterion_name == criterion_name))) ++
      [{ target_id := target_id, criterion_name := criterion_name,
         met := if met then 1 else 0, points_awarded := pts, evidence := evidence }] }

/-- `SELECT * FROM criteria ORDER BY sort_order` (stable sort on the key;
`configure_criteria` assigns distinct sort orders, so the order is total). -/
def criteriaSorted (g : GraphScorer) : List CriterionRow :=
  List.insertionSort (fun a b => a.sort_order ≤ b.sort_order) g.criteria

/-- The aggregate returned by `compute_score`. -/
structure ScoreAgg where
  target_id : ℕ
  total : ℤ
  max_possible : ℤ
  validated : Bool
  threshold : ℤ
  details : List (String × ScoreDetail)
  deriving DecidableEq

/-- The per-criterion accumulation loop of `compute_score`: walk the
configured criteria in order, summing `points` into `max_possible` and the
stored `points_awarded` (0 when no score row exists) into `total`, recording
one detail entry per criterion. -/
def aggRows (scores : List ScoreRow) (target_id : ℕ) :
    List CriterionRow → ℤ × ℤ × List (String × ScoreDetail)
  | [] => (0, 0, [])
  | cr :: rest =>
    let sc := findScore scores target_id cr.name
    let awarded : ℤ := match sc with | some s => s.points_awarded | none => 0
    let met : Bool := match sc with | some s => decide (s.met ≠ 0) | none => false
    let ev : String := match sc with | some s => s.evidence | none => ""
    let acc := aggRows scores target_id rest
    (awarded + acc.1, cr.points + acc.2.1,
      (cr.name, { label := cr.label, max := cr.points, awarded := awarded,
                  met := met, evidence := ev }) :: acc.2.2)

/-- The pure part of `compute_score`: everything it reads is the criteria
table, the threshold config entry and the score rows. -/
def scoreAgg (g : GraphScorer) (target_id : ℕ) : ScoreAgg :=
  let acc := aggRows g.scores target_id (criteriaSorted g)
  let threshold := g.get_threshold
  { target_id := target_id, total := acc.1, max_possible := acc.2.1,
    validated := decide (threshold ≤ acc.1), threshold := threshold,
    details := acc.2.2 }

/-- `GraphScorer.compute_score`: compute the aggregate, `INSERT OR REPLACE`
it into `score_totals`, and side-effect the linked entity's status to
`validated`/`scored`. Returns the aggregate and the updated store. -/
def GraphScorer.compute_score (g : GraphScorer) (target_id : ℕ) : ScoreAgg × GraphScorer :=
  let agg := scoreAgg g target_id
  let row : ScoreTotalRow :=
    { target_id := target_id, total := agg.total, max_possible := agg.max_possible,
      validated := if agg.validated then 1 else 0, threshold := agg.threshold,
      details := agg.details }
  let g1 := { g with score_totals :=
      (g.score_totals.filter (fun r => r.target_id != target_id)) ++ [row] }
  let g2 :=
    match g.targets.find? (fun t => t.id == target_id) with
    | some t =>
      if t.entity_id ≠ 0 then
        { g1 with entities := g1.entities.map (fun e =>
            if e.id = t.entity_id then
              { e with status := if agg.validated then "validated" else "scored" }
            else e) }
      else g1
    | none => g1
  (agg, g2)

/-!
## pipeline/pipeline_core/strategy_planner.py
-/

/-- `strategy_planner.py` `Step`: a strategy step with nested sub-steps. -/
inductive Step where
  | mk (id : String) (action : String) (description : String) (queries : List String)
       (expected_output : String) (sub_steps : List Step) (source_type : String)
       (priority : ℚ) (depends_on : String) (condition : String)

/-- Accessor for the sub-steps of a step. -/
def Step.sub_steps : Step → List Step
  | .mk _ _ _ _ _ subs _ _ _ _ => subs

/-- Accessor for the queries of a step. -/
def Step.queries : Step → List String
  | .mk _ _ _ qs _ _ _ _ _ _ => qs

/-- Accessor for the priority of a step. -/
def Step.priority : Step → ℚ
  | .mk _ _ _ _ _ _ _ p _ _ => p

/-- `strategy_planner.py` `Strategy`. -/
structure Strategy where
  name : String := ""
  tier : String := ""
  tier_label : String := ""
  description : String := ""
  steps : List Step := []
  estimated_cost : String := ""
  estimated_yield : String := ""
  priority : ℤ := 1

/-- The placeholder substitution applied to every emitted query:
`q.replace("{city}", city).replace("{state}", state).replace("{country}", "USA")`. -/
def fillPlaceholders (q city state : String) : String :=
  ((q.replace "\x7bcity\x7d" city).replace "\x7bstate\x7d" state).replace "\x7bcountry\x7d" "USA"

/-- The flat query descriptor dict produced by `flatten_queries`. -/
structure QueryDescriptor where
  query : String
  strategy : String
  tier : String
  step_id : String
  step_action : String
  source_type : String
  priority : ℚ
  condition : String
  deriving DecidableEq

/-- `StrategyPlanner._flatten_steps`: depth-first pre-order walk of a step
list — emit every query of a step (with placeholder substitution), then
recurse into its sub-steps, then continue with the remaining steps. -/
def flattenSteps (strat_name tier city state : String) : List Step → List QueryDescriptor
  | [] => []
  | (Step.mk sid action _ queries _ subs stype prio _ cond) :: rest =>
    queries.map (fun q =>
      { query := fillPlaceholders q city state, strategy := strat_name, tier := tier,
        step_id := sid, step_action := action, source_type := stype,
        priority := prio, condition := cond })
    ++ flattenSteps strat_name tier city state subs
    ++ flattenSteps strat_name tier city state rest

/-- The unsorted result list: the depth-first traversal of every strategy's
step tree, in strategy order. -/
def flattenAll (strategies : List Strategy) (city state : String) : List QueryDescriptor :=
  match strategies with
  | [] => []
  | s :: rest => flattenSteps s.name s.tier city state s.steps ++ flattenAll rest city state

/-- The priority-descending preorder used by `result.sort(key=priority,
reverse=True)`. -/
def qdOrder (a b : QueryDescriptor) : Prop := b.priority ≤ a.priority

instance : DecidableRel qdOrder := fun a b => inferInstanceAs (Decidable (b.priority ≤ a.priority))

instance : IsTotal QueryDescriptor qdOrder :=
  ⟨fun a b => (le_total b.priority a.priority).imp (fun h => h) (fun h => h)⟩

instance : IsTrans QueryDescriptor qdOrder :=
  ⟨fun _ _ _ h1 h2 => le_trans h2 h1⟩

/-- `StrategyPlanner.flatten_queries`: the depth-first traversal sorted by
descending priority. Python's `list.sort` is a stable sort; a stable sort of a
list under a fixed total preorder is unique, so it is embedded as insertion
sort (whose stability is proved below in `flatten_queries_spec`). -/
def flatten_queries (strategies : List Strategy) (city state : String) : List QueryDescriptor :=
  List.insertionSort qdOrder (flattenAll strategies city state)

/-!
## pipeline/pipeline.py — one category wave

`PipelineOrchestrator._process_category_wave` is embedded as a pure function
over the outputs of its I/O collaborators, which are supplied as oracle
inputs in `WaveEnv`: the generated queries (phase 1), the checkpoint
decisions, the aggregated browser search results (phase 2), and the triage /
fetch / extraction / assembly / follow-up / verification oracles (phases
3-7, each an LLM or network call in the source). The embedding models a run
in which the process-wide cancellation flag `self.running` stays `True`
(cancellation never fires mid-wave), and omits CSV/HTML persistence and UI
logging, which no claim observes. Calls to `self.cost.report_result` are
recorded in order as `CostCall` values; graph feeding goes through the
`GraphScorer` embedding above.
-/

/-- `config/settings.py` `MAX_WAVES`. -/
def MAX_WAVES : ℕ := 3

/-- `config/settings.py` `MAX_PAGES_TO_FETCH`. -/
def MAX_PAGES_TO_FETCH : ℕ := 25

/-- A query dict as produced by `_generate_queries` / checkpoint modification. -/
structure QueryDict where
  query : String := ""
  angle : String := "?"
  step_id : String := ""
  source_type : String := ""
  deriving DecidableEq

/-- One parsed search result (the dicts built in `_search`). -/
structure SearchResult where
  url : String := ""
  title : String := ""
  snippet : String := ""
  domain : String := ""
  deriving DecidableEq

/-- One triage-scored result kept for fetching. -/
structure ScoredResult where
  url : String := ""
  score : ℤ := 0
  reason : String := ""
  deriving DecidableEq

/-- Result of `fetch_page`. -/
structure FetchResult where
  success : Bool := false
  text : String := ""
  error : String := ""

/-- One assembled candidate dict (phase 5 output), restricted to the keys the
wave reads. -/
structure AssembledCandidate where
  channel_name : String := "?"
  channel_url : String := ""
  description : String := ""
  city_evidence_strength : String := ""
  city_evidence_sources : List String := []
  deriving DecidableEq

/-- One recorded call to `self.cost.report_result`. -/
structure CostCall where
  source : String
  found : ℕ
  cost : ℚ
  value : ℚ
  query : String
  deriving DecidableEq

/-- Oracle inputs for one category wave (see section header). -/
structure WaveEnv where
  genQueries : List QueryDict
  cp1 : String := "continue"
  cp1Mods : List QueryDict := []
  cp2 : String := "continue"
  cp3 : String := "continue"
  searchResults : List SearchResult := []
  triage : List SearchResult → List ScoredResult
  fetch : String → FetchResult
  extract : FetchResult → ScoredResult → List Fragment × List Fragment
  assemble : List Fragment → List AssembledCandidate
  followups : List AssembledCandidate → List AssembledCandidate
  verify : List AssembledCandidate → List ChannelCandidate

/-- Outcome of one category wave: the category status and failure reason,
the `report_result` calls made, which phases were entered, whether the
escalation analysis (`_escalate` with waves remaining) was invoked, the best
verified candidate and the updated graph store. -/
structure WaveResult where
  status : String
  failure_reason : String := ""
  costCalls : List CostCall := []
  triageRan : Bool := false
  fetchRan : Bool := false
  assembleRan : Bool := false
  verifyRan : Bool := false
  escalated : Bool := false
  best_candidate : Option ChannelCandidate := none
  graph : GraphScorer := {}

/-- URL deduplication of phase 2 (`seen` set, keep first occurrence). -/
def dedupByUrl (seen : List String) : List SearchResult → List SearchResult
  | [] => []
  | r :: rest =>
    if r.url ∈ seen then dedupByUrl seen rest
    else r :: dedupByUrl (r.url :: seen) rest

/-- `PipelineOrchestrator._escalate`: on the last allowed wave mark the
category failed with the phase tallies, otherwise run the failure-analysis
LLM call (recorded here as the `escalated` flag) and keep the category
in progress for the next wave. Returns (status, failure_reason, escalated). -/
def escalateOutcome (wave tr pf fr : ℕ) : String × String × Bool :=
  if MAX_WAVES ≤ wave then
    ("failed",
     "Exhausted " ++ toString wave ++ " waves (results:" ++ toString tr ++
       ",pages:" ++ toString pf ++ ",frags:" ++ toString fr ++ ")",
     false)
  else ("in_progress", "", true)

/-- Phase 4 fetch-and-extract loop: skip entries without a URL and failed
fetches, accumulate extracted fragments and cross-city references. -/
def fetchLoop (env : WaveEnv) (to_fetch : List ScoredResult) :
    List Fragment × List Fragment :=
  to_fetch.foldl (fun acc pi =>
    if pi.url = "" then acc
    else
      let pd := env.fetch pi.url
      if !pd.success then acc
      else
        let fc := env.extract pd pi
        (acc.1 ++ fc.1, acc.2 ++ fc.2)) ([], [])

/-- Phase 5→ graph feeding: register every candidate as an entity (and as a
target when it has a channel URL). -/
def feedGraph (g : GraphScorer) (candidates : List AssembledCandidate)
    (city state_name : String) : GraphScorer :=
  candidates.foldl (fun g cand =>
    let eg := g.add_entity cand.channel_name "person"
      { city := city, state := state_name, source_type := "search_result",
        status := "target_found" }
    if cand.channel_url ≠ "" then
      (eg.2.add_target cand.channel_url eg.1 "youtube"
        { name := cand.channel_name, description := cand.description }).2
    else eg.2) g

/-- `max(verified, key=total_score)`: first maximal element. -/
def firstMaxByScore (c : ChannelCandidate) (rest : List ChannelCandidate) : ChannelCandidate :=
  rest.foldl (fun best x => if best.total_score < x.total_score then x else best) c

/-- `PipelineOrchestrator._process_category_wave` control skeleton. The
category record enters the wave with status `in_progress` (set at the top of
the wave); every early return leaves the remaining phase flags `false`. -/
def processCategoryWave (env : WaveEnv) (g : GraphScorer) (city state_name cat_label : String)
    (wave : ℕ) : WaveResult :=
  -- Phase 1: queries
  if env.genQueries.isEmpty then
    { status := "failed", failure_reason := "No queries", graph := g }
  else if env.cp1 = "skip" then
    { status := "failed", failure_reason := "Skipped by user", graph := g }
  else
  let queries :=
    if env.cp1 = "modify" ∧ ¬env.cp1Mods.isEmpty then
      (env.cp1Mods.filter (fun q => q.query.trim ≠ "")).map
        (fun q => { query := q.query, angle := q.angle : QueryDict })
    else env.genQueries
  -- Phase 2: search + dedup
  let unique := dedupByUrl [] env.searchResults
  if unique.isEmpty then
    let cc : List CostCall := [⟨"direct", 0, (queries.length : ℚ), 0, ""⟩]
    let eo := escalateOutcome wave 0 0 0
    { status := eo.1, failure_reason := eo.2.1, escalated := eo.2.2,
      costCalls := cc, graph := g }
  else
  let yt_in_results := (unique.filter (fun r => strContains r.url "youtube.com")).length
  let source_tier := if wave = 1 then "direct" else if wave = 2 then "semi_direct" else "indirect"
  let cc0 : List CostCall :=
    [⟨source_tier, yt_in_results, (queries.length : ℚ), 0,
      city ++ "/" ++ cat_label ++ "/wave" ++ toString wave⟩]
  if env.cp2 = "skip" then
    { status := "failed", failure_reason := "Skipped after search", costCalls := cc0, graph := g }
  else
  -- Phase 3: triage
  let scored := env.triage unique
  let to_fetch := scored.take MAX_PAGES_TO_FETCH
  if to_fetch.isEmpty then
    let eo := escalateOutcome wave unique.length 0 0
    { status := eo.1, failure_reason := eo.2.1, escalated := eo.2.2,
      costCalls := cc0, triageRan := true, graph := g }
  else
  -- Phase 4: fetch & extract
  let fc := fetchLoop env to_fetch
  let all_frags := fc.1
  if all_frags.isEmpty then
    let eo := escalateOutcome wave unique.length to_fetch.length 0
    { status := eo.1, failure_reason := eo.2.1, escalated := eo.2.2,
      costCalls := cc0, triageRan := true, fetchRan := true, graph := g }
  else
  -- Phase 5: assembly
  let candidates := env.assemble all_frags
  if candidates.isEmpty then
    let eo := escalateOutcome wave unique.length to_fetch.length all_frags.length
    { status := eo.1, failure_reason := eo.2.1, escalated := eo.2.2,
      costCalls := cc0, triageRan := true, fetchRan := true, assembleRan := true, graph := g }
  else
  let g1 := feedGraph g candidates city state_name
  if env.cp3 = "skip" then
    { status := "failed", failure_reason := "Skipped before verification",
      costCalls := cc0, triageRan := true, fetchRan := true, assembleRan := true, graph := g1 }
  else
  -- Phase 5b: follow-ups (skipped when nothing is incomplete or waves ran out)
  let incomplete := candidates.filter (fun c =>
    c.channel_url = "" || c.city_evidence_strength = "weak" || c.city_evidence_strength = "none")
  let candidates2 :=
    if incomplete.isEmpty ∨ MAX_WAVES ≤ wave then candidates else env.followups candidates
  -- Phases 6+7: verification
  let verified := env.verify candidates2
  match verified with
  | [] =>
    if MAX_WAVES ≤ wave then
      { status := "failed",
        failure_reason := "No verified channel after " ++ toString wave ++ " waves",
        costCalls := cc0, triageRan := true, fetchRan := true, assembleRan := true,
        verifyRan := true, graph := g1 }
    else
      { status := "in_progress", costCalls := cc0, triageRan := true, fetchRan := true,
        assembleRan := true, verifyRan := true, graph := g1 }
  | v :: vs =>
    let best := firstMaxByScore v vs
    { status := "resolved",
      costCalls := cc0 ++ [⟨source_tier, (v :: vs).length, 0, ((v :: vs).length : ℚ) * 20, ""⟩],
      triageRan := true, fetchRan := true, assembleRan := true, verifyRan := true,
      best_candidate := some best, graph := g1 }

/-!
## Statement-support definitions (concrete instances used by the theorems)
-/

/-- The engine on which the patience property is stated: fresh engine with
the given initial patience and drain, one source `"s"` registered. -/
def mkMissEngine (p d : ℤ) (prio : ℚ) : CostEngine :=
  ({ CostEngine.init with patience_initial := p, patience_drain := d }).add_source "s" prio

/-- Closed form of the stats of source `"s"` after `k` consecutive misses
from fresh (proved correct in `reportMisses_sources_eq`). -/
def missSrc (p d : ℤ) (prio : ℚ) (k : ℕ) : SourceStats :=
  { name := "s", priority := prio, attempts := k, hits := 0, misses := k,
    total_cost := (k : ℚ), total_value := 0,
    patience := max 0 (p - (k : ℤ) * d),
    exhausted := decide (1 ≤ k) && decide (p - (k : ℤ) * d ≤ 0),
    last_hit_at := 0 }

/-- A concrete wave environment whose query-generation phase yields nothing. -/
def envNoQueries : WaveEnv :=
  { genQueries := [], triage := fun _ => [], fetch := fun _ => {},
    extract := fun _ _ => ([], []), assemble := fun _ => [],
    followups := fun c => c, verify := fun _ => [] }

/-- A concrete wave environment with one query and zero search results. -/
def envNoResults : WaveEnv :=
  { genQueries := [{ query := "cinema youtubers Austin" }], searchResults := [],
    triage := fun _ => [], fetch := fun _ => {}, extract := fun _ _ => ([], []),
    assemble := fun _ => [], followups := fun c => c, verify := fun _ => [] }

/-!
## Theorems
-/

theorem compute_city_score_fields (c : ChannelCandidate) :
    (c.compute_city_score).yt_exists = c.yt_exists ∧
    (c.compute_city_score).category_score = c.category_score ∧
    (c.compute_city_score).yt_subscriber_match = c.yt_subscriber_match ∧
    (c.compute_city_score).yt_last_upload_recent = c.yt_last_upload_recent ∧
    (c.compute_city_score).independent_sources = c.independent_sources ∧
    (c.compute_city_score).total_score = c.total_score := by
  unfold ChannelCandidate.compute_city_score
  dsimp only
  split
  · exact ⟨rfl, rfl, rfl, rfl, rfl, rfl⟩
  · split
    · exact ⟨rfl, rfl, rfl, rfl, rfl, rfl⟩
    · exact ⟨rfl, rfl, rfl, rfl, rfl, rfl⟩

/-- C1 (amended): `compute_total_score` forces the total score to 0 whenever
the platform existence check failed (`yt_exists = false`), regardless of every
other evidence field; when the check succeeded the total equals the weighted
sum `0.30*city + 0.15*category + 0.25*[subscriber match] + 0.20*[recent
activity] + 0.10*min(1, independent_sources/3)` **rounded to 3 decimal
places** (the code applies `round(..., 3)`; the unrounded claim is refuted by
`C1_counterexample`). -/
theorem C1_total_score (c : ChannelCandidate) :
    (c.yt_exists = false → (c.compute_total_score).total_score = 0) ∧
    (c.yt_exists = true →
      (c.compute_total_score).total_score = roundTo3 (
        3/10 * (c.compute_total_score).city_score + 3/20 * c.category_score
        + 1/4 * (if c.yt_subscriber_match then 1 else 0)
        + 1/5 * (if c.yt_last_upload_recent then 1 else 0)
        + 1/10 * min 1 ((c.independent_sources : ℚ) / 3))) := by
  obtain ⟨h1, h2, h3, h4, h5, _⟩ := compute_city_score_fields c
  constructor
  · intro h
    unfold ChannelCandidate.compute_total_score
    simp [h1, h]
  · intro h
    unfold ChannelCandidate.compute_total_score
    simp [h1, h, h2, h3, h4, h5]

/-- Witness for C1 at a concrete candidate: with the platform-existence flag
down the computed total is 0 even though every other evidence field is maxed. -/
theorem C1_total_score_witness :
    (ChannelCandidate.compute_total_score
      { yt_exists := false, yt_subscriber_match := true, yt_last_upload_recent := true,
        independent_sources := 9, category_score := 1 }).total_score = 0 :=
  (C1_total_score _).1 rfl

/-- C1 counterexample: for a candidate with `yt_exists = true`, one
independent source and no other evidence, the computed total (`0.033`, after
`round(_, 3)`) differs from the exact weighted sum `0.10*min(1, 1/3) = 1/30`
stated by the claim. -/
theorem C1_counterexample :
    (ChannelCandidate.compute_total_score
        { yt_exists := true, independent_sources := 1 }).total_score ≠
      3/10 * 0 + 3/20 * 0 + 1/4 * 0 + 1/5 * 0 + 1/10 * min 1 ((1 : ℚ) / 3) := by
  have h : (ChannelCandidate.compute_total_score
      { yt_exists := true, independent_sources := 1 }).total_score = 33/1000 := by
    unfold ChannelCandidate.compute_total_score ChannelCandidate.compute_city_score
    norm_num [roundTo3, roundHalfEven, min_def]
  rw [h]
  norm_num [min_def]

/-- C8 (amended): the effective priority is 0 whenever the source is
exhausted; for a source with at least one attempt it equals
`max(0, 0.3*priority + 0.5*(hit_rate*100) - min(30, 1.5*drought)
+ min(20, 5*roi))`; but for a fresh source (zero attempts) it is the raw
initial priority, not that formula (see `C8_counterexample`). -/
theorem C8_effective_priority (s : SourceStats) :
    (s.exhausted = true → s.effective_priority = 0) ∧
    (s.exhausted = false → s.attempts = 0 → s.effective_priority = s.priority) ∧
    (s.exhausted = false → s.attempts ≠ 0 →
      s.effective_priority = max 0 (s.priority * (3/10) + s.hit_rate * 100 * (1/2)
        - min 30 ((s.drought : ℚ) * (3/2)) + min 20 (s.roi * 5))) := by
  unfold SourceStats.effective_priority
  refine ⟨fun h => by simp [h], fun h h0 => by simp [h, h0], fun h h0 => by simp [h, h0]⟩

/-- Witness for C8: an exhausted source has effective priority 0, and a
source with one attempt follows the weighted formula. -/
theorem C8_effective_priority_witness :
    ({ name := "s", exhausted := true } : SourceStats).effective_priority = 0 ∧
    ({ name := "s", attempts := 1 } : SourceStats).effective_priority =
      max 0 (({ name := "s", attempts := 1 } : SourceStats).priority * (3/10)
        + ({ name := "s", attempts := 1 } : SourceStats).hit_rate * 100 * (1/2)
        - min 30 ((({ name := "s", attempts := 1 } : SourceStats).drought : ℚ) * (3/2))
        + min 20 (({ name := "s", attempts := 1 } : SourceStats).roi * 5)) :=
  ⟨(C8_effective_priority _).1 rfl,
   (C8_effective_priority _).2.2 rfl (by decide)⟩

/-- C8 counterexample: a fresh (never attempted, non-exhausted) source with
initial priority 50 has effective priority 50, while the claimed formula
evaluates to `max(0, 0.3*50 + 0.5*0 - 0 + 0) = 15`. -/
theorem C8_counterexample :
    ({ name := "s", priority := 50 } : SourceStats).effective_priority ≠
      max 0 (({ name := "s", priority := 50 } : SourceStats).priority * (3/10)
        + ({ name := "s", priority := 50 } : SourceStats).hit_rate * 100 * (1/2)
        - min 30 ((({ name := "s", priority := 50 } : SourceStats).drought : ℚ) * (3/2))
        + min 20 (({ name := "s", priority := 50 } : SourceStats).roi * 5)) := by
  unfold SourceStats.effective_priority SourceStats.hit_rate SourceStats.roi SourceStats.drought
  norm_num [max_def, min_def]

/-- C9: reporting a result for a source name that was never registered is a
silent no-op — the engine state (per-source statistics, `total_found`,
`total_actions`, action log) is returned unchanged, and the embedded
`report_result` is a total function, so no error is raised. -/
theorem C9_unknown_source (decay : ℤ → ℚ) (e : CostEngine) (name : String)
    (found : ℕ) (cost value : ℚ) (query : String)
    (h : e.sources.lookup name = none) :
    e.report_result decay name found cost value query = e := by
  unfold CostEngine.report_result
  rw [h]

/-- Witness for C9: reporting on the fresh default engine (no sources) under
an unregistered name returns the engine unchanged. -/
theorem C9_unknown_source_witness :
    CostEngine.init.report_result (fun _ => 0) "ghost" 3 1 0 "q" = CostEngine.init :=
  C9_unknown_source (fun _ => 0) CostEngine.init "ghost" 3 1 0 "q" rfl

/-- C3: `should_stop` returns true as soon as `total_found ≥ target_count`
(no hypothesis on the budget is needed, so in particular this holds when
`total_actions` is still below the global budget) and records the stop reason
`target_reached`; the budget check fires only when the target check did not,
and the all-sources-exhausted check only when neither did (source-order
evaluation); and once any stop has fired (`stopped = true`) every later call
returns true without touching the state or the recorded reason. -/
theorem C3_should_stop (e : CostEngine) :
    (e.stopped = false → e.target_count ≤ e.total_found →
      e.should_stop = (true,
        { e with stopped := true,
                 stop_reason := "target_reached: Found " ++ toString e.total_found ++ "/" ++
                   toString e.target_count ++ " targets" })) ∧
    (e.stopped = false → e.total_found < e.target_count → e.global_budget ≤ e.total_actions →
      e.should_stop = (true,
        { e with stopped := true,
                 stop_reason := "budget_exhausted: Used " ++ toString e.total_actions ++ "/" ++
                   toString e.global_budget ++ " actions" })) ∧
    (e.stopped = false → e.total_found < e.target_count → e.total_actions < e.global_budget →
      (e.sources.filter (fun p => !p.2.exhausted)).isEmpty = true → e.sources.isEmpty = false →
      e.should_stop = (true,
        { e with stopped := true,
                 stop_reason := "all_sources_exhausted: All " ++ toString e.sources.length ++
                   " sources exhausted" })) ∧
    (e.stopped = true → e.should_stop = (true, e)) := by
  unfold CostEngine.should_stop CostEngine.stopWith
  refine ⟨fun h ht => ?_, fun h ht hb => ?_, fun h ht hb hall hne => ?_, fun h => by simp [h]⟩
  · simp [h, ht, String.append_assoc]
    rw [← String.append_assoc]
    rfl
  · simp [h, Nat.not_le.mpr ht, hb, String.append_assoc]
    rw [← String.append_assoc]
    rfl
  · simp [h, Nat.not_le.mpr ht, Nat.not_le.mpr hb, hall, hne, String.append_assoc]
    rw [← String.append_assoc]
    rfl

/-- Witness for C3: an engine that has found 5 of a target of 3, with the
budget far from exhausted, stops with reason `target_reached`; re-querying
the stopped engine is a no-op returning true. -/
theorem C3_should_stop_witness :
    ({ CostEngine.init with total_found := 5, target_count := 3 } : CostEngine).should_stop =
      (true, { CostEngine.init with total_found := 5, target_count := 3, stopped := true,
                                      stop_reason := "target_reached: Found 5/3 targets" }) ∧
    ({ CostEngine.init with stopped := true, stop_reason := "x" } : CostEngine).should_stop =
      (true, { CostEngine.init with stopped := true, stop_reason := "x" }) :=
  ⟨(C3_should_stop _).1 rfl (by decide), (C3_should_stop _).2.2.2 rfl⟩

theorem report_result_miss_single (decay : ℤ → ℚ) (e : CostEngine) (src : SourceStats)
    (h : e.sources = [("s", src)]) :
    (e.report_result decay "s" 0 1 0 "").sources =
      [("s",
        if src.patience - e.patience_drain ≤ 0 then
          { src with attempts := src.attempts + 1, total_cost := src.total_cost + 1,
                     misses := src.misses + 1, patience := 0, exhausted := true }
        else
          { src with attempts := src.attempts + 1, total_cost := src.total_cost + 1,
                     misses := src.misses + 1,
                     patience := src.patience - e.patience_drain })] ∧
    (e.report_result decay "s" 0 1 0 "").patience_drain = e.patience_drain := by
  unfold CostEngine.report_result
  rw [h]
  simp only [List.lookup, beq_self_eq_true, if_true]
  by_cases hc : src.patience - e.patience_drain ≤ 0 <;>
    simp [hc, updateSource, h]

theorem reportMisses_state (decay : ℤ → ℚ) (p d : ℤ) (prio : ℚ) (hp : 0 ≤ p) (hd : 0 ≤ d) :
    ∀ k : ℕ, (CostEngine.reportMisses decay (mkMissEngine p d prio) "s" k).sources
        = [("s", missSrc p d prio k)] ∧
      (CostEngine.reportMisses decay (mkMissEngine p d prio) "s" k).patience_drain = d := by
  intro k
  induction k with
  | zero =>
    refine ⟨?_, rfl⟩
    show (mkMissEngine p d prio).sources = _
    unfold mkMissEngine CostEngine.add_source CostEngine.init missSrc
    simp [SourceStats.mk.injEq]
    omega
  | succ k ih =>
    have step := report_result_miss_single decay
      (CostEngine.reportMisses decay (mkMissEngine p d prio) "s" k) (missSrc p d prio k) ih.1
    rw [ih.2] at step
    refine ⟨?_, ?_⟩
    · show ((CostEngine.reportMisses decay (mkMissEngine p d prio) "s" k).report_result
        decay "s" 0 1 0 "").sources = _
      rw [step.1]
      by_cases hc : (missSrc p d prio k).patience - d ≤ 0
      · rw [if_pos hc]
        unfold missSrc at hc ⊢
        simp only [List.cons.injEq, Prod.mk.injEq, SourceStats.mk.injEq] at hc ⊢
        have hk1 : (1 : ℕ) ≤ k + 1 := by omega
        have hle : p - (k : ℤ) * d ≤ max 0 (p - (k : ℤ) * d) := le_max_right _ _
        have h2 : p - ((k + 1 : ℕ) : ℤ) * d ≤ 0 := by push_cast; push_cast at hle; linarith
        refine ⟨⟨trivial, trivial, trivial, trivial, trivial, trivial, by push_cast; ring,
          trivial, (max_eq_left h2).symm, by rw [decide_eq_true hk1, decide_eq_true h2]; rfl, trivial⟩, trivial⟩
      · rw [if_neg hc]
        unfold missSrc at hc ⊢
        simp only [List.cons.injEq, Prod.mk.injEq, SourceStats.mk.injEq] at hc ⊢
        push_neg at hc
        rcases max_cases 0 (p - (k : ℤ) * d) with ⟨he, hle⟩ | ⟨he, hlt⟩
        · rw [he] at hc; exact absurd hc (by simp; linarith)
        · rw [he] at hc ⊢
          have hA : ¬(p - (k : ℤ) * d ≤ 0) := by linarith
          have hB : ¬(p - ((k + 1 : ℕ) : ℤ) * d ≤ 0) := by push_cast; linarith
          have hmax : max 0 (p - ((k + 1 : ℕ) : ℤ) * d) = p - ((k + 1 : ℕ) : ℤ) * d :=
            max_eq_right (by push_cast; linarith)
          refine ⟨⟨trivial, trivial, trivial, trivial, trivial, trivial, by push_cast; ring,
            trivial, by rw [hmax]; push_cast; ring,
            by rw [decide_eq_false hA, decide_eq_false hB]; simp, trivial⟩, trivial⟩
    · show ((CostEngine.reportMisses decay (mkMissEngine p d prio) "s" k).report_result
        decay "s" 0 1 0 "").patience_drain = d
      rw [step.2]

/-- C2: for a source registered fresh with `patience_initial = p` (≥ 0) and
`patience_drain = d` (≥ 0), after `k ≥ 1` consecutive misses reported via
`report_result` its patience equals `max(0, p - k*d)`, and the source is
exhausted exactly when that value has reached 0. In particular with
`patience_initial = 30, patience_drain = 1` the source survives 3 misses
(patience 27) and exhausts only at miss 30 (see the witness). The statement
is universal in the ROI-decay oracle, so it holds for the actual
`math.exp`-based decay. -/
theorem C2_patience (decay : ℤ → ℚ) (p d : ℤ) (prio : ℚ) (k : ℕ)
    (hp : 0 ≤ p) (hd : 0 ≤ d) (hk : 1 ≤ k) :
    ∃ src : SourceStats,
      (CostEngine.reportMisses decay (mkMissEngine p d prio) "s" k).sources.lookup "s"
        = some src ∧
      src.patience = max 0 (p - (k : ℤ) * d) ∧
      (src.exhausted = true ↔ max 0 (p - (k : ℤ) * d) = 0) := by
  obtain ⟨hsrc, -⟩ := reportMisses_state decay p d prio hp hd k
  refine ⟨missSrc p d prio k, by rw [hsrc]; rfl, rfl, ?_⟩
  unfold missSrc
  simp only [Bool.and_eq_true, decide_eq_true_eq]
  constructor
  · rintro ⟨-, h⟩
    exact max_eq_left h
  · intro h
    refine ⟨hk, ?_⟩
    by_contra hlt
    push_neg at hlt
    rw [max_eq_right (le_of_lt hlt)] at h
    omega

/-- Witness for C2 at `p = 30, d = 1`: after 3 misses patience is
`max(0, 30-3) = 27` and the source is not yet exhausted; after 30 misses
patience is 0 and the source is exhausted. -/
theorem C2_patience_witness :
    (∃ src : SourceStats,
      (CostEngine.reportMisses (fun _ => 0) (mkMissEngine 30 1 50) "s" 3).sources.lookup "s"
        = some src ∧
      src.patience = max 0 (30 - (3 : ℤ) * 1) ∧
      (src.exhausted = true ↔ max 0 (30 - (3 : ℤ) * 1) = 0)) ∧
    (∃ src : SourceStats,
      (CostEngine.reportMisses (fun _ => 0) (mkMissEngine 30 1 50) "s" 30).sources.lookup "s"
        = some src ∧
      src.patience = max 0 (30 - (30 : ℤ) * 1) ∧
      (src.exhausted = true ↔ max 0 (30 - (30 : ℤ) * 1) = 0)) :=
  ⟨C2_patience (fun _ => 0) 30 1 50 3 (by decide) (by decide) (by decide),
   C2_patience (fun _ => 0) 30 1 50 30 (by decide) (by decide) (by decide)⟩

theorem find?_url_map (url : String) (f : TargetRow → TargetRow)
    (hf : ∀ r, (f r).url = r.url) (l : List TargetRow) :
    (l.map f).find? (fun t => t.url == url) = (l.find? (fun t => t.url == url)).map f := by
  rw [List.find?_map]
  have hcomp : ((fun t : TargetRow => t.url == url) ∘ f) = (fun t : TargetRow => t.url == url) := by
    funext r
    simp [Function.comp, hf r]
  rw [hcomp]

theorem add_entity_twice (g : GraphScorer) (name kind kind2 : String) (kw kw2 : EntityKw)
    (hcity : kw2.city = kw.city) :
    (g.add_entity name kind kw).2.add_entity name kind2 kw2 = g.add_entity name kind kw := by
  unfold GraphScorer.add_entity
  rw [hcity]
  cases hfind : g.entities.find? (fun e => e.name == name && e.city == kw.city) with
  | some e => simp [hfind]
  | none => simp [hfind, List.find?_append]

theorem add_target_found (g : GraphScorer) (url platform : String) (e1 : ℕ) (tkw : TargetKw) :
    ∃ t' : TargetRow,
      (g.add_target url e1 platform tkw).2.targets.find? (fun t => t.url == url) = some t' ∧
      t'.id = (g.add_target url e1 platform tkw).1 := by
  unfold GraphScorer.add_target
  cases hfind : g.targets.find? (fun t => t.url == url) with
  | some t =>
    by_cases he1 : e1 ≠ 0
    · have hf : ∀ r : TargetRow,
          ((if r.id = t.id ∧ r.entity_id = 0 then { r with entity_id := e1 } else r)
            : TargetRow).url = r.url := by
        intro r; by_cases h : r.id = t.id ∧ r.entity_id = 0 <;> simp [h]
      refine ⟨if t.id = t.id ∧ t.entity_id = 0 then { t with entity_id := e1 } else t, ?_, ?_⟩
      · simp only [he1, if_pos he1]
        rw [find?_url_map url _ hf, hfind]
        simp
      · by_cases h : t.entity_id = 0 <;> simp [h, he1]
    · refine ⟨t, ?_, ?_⟩
      · simp only [if_neg he1]
        exact hfind
      · simp [he1]
  | none =>
    refine ⟨{ id := g.target_seq, entity_id := e1, platform := platform, url := url,
              name := tkw.name, description := tkw.description, followers := tkw.followers,
              last_activity := tkw.last_activity,
              is_active := if tkw.is_active then 1 else 0, keywords := tkw.keywords,
              location_detected := if tkw.location_detected then 1 else 0,
              topic_detected := if tkw.topic_detected then 1 else 0,
              is_creator := if tkw.is_creator then 1 else 0,
              external_links := tkw.external_links, raw_data := tkw.raw_data }, ?_, rfl⟩
    dsimp only
    rw [List.find?_append, hfind]
    simp

theorem add_target_on_found (g' : GraphScorer) (url platform2 : String) (e2 : ℕ)
    (tkw2 : TargetKw) (t' : TargetRow)
    (hfind : g'.targets.find? (fun t => t.url == url) = some t') :
    g'.add_target url e2 platform2 tkw2 =
      (t'.id,
        { g' with targets := g'.targets.map (fun r =>
            if e2 ≠ 0 ∧ r.id = t'.id ∧ r.entity_id = 0
            then { r with entity_id := e2 } else r) }) := by
  unfold GraphScorer.add_target
  rw [hfind]
  by_cases he2 : e2 ≠ 0
  · simp [he2]
  · simp [he2]

/-- C4: adding the same `(name, city)` entity twice returns the same id both
times and the second call changes nothing; adding the same URL target twice
returns the first call's id, and the second call leaves the stored state
unchanged except that, when the supplied entity id is non-zero, it backfills
the entity link of rows with that id whose stored link is empty. -/
theorem C4_dedup (g : GraphScorer) (name kind kind2 city : String) (kw kw2 : EntityKw)
    (url platform platform2 : String) (e1 e2 : ℕ) (tkw tkw2 : TargetKw) :
    ((g.add_entity name kind { kw with city := city }).2.add_entity name kind2
        { kw2 with city := city })
      = g.add_entity name kind { kw with city := city } ∧
    ((g.add_target url e1 platform tkw).2.add_target url e2 platform2 tkw2).1
      = (g.add_target url e1 platform tkw).1 ∧
    ((g.add_target url e1 platform tkw).2.add_target url e2 platform2 tkw2).2
      = { (g.add_target url e1 platform tkw).2 with
            targets := (g.add_target url e1 platform tkw).2.targets.map (fun r =>
              if e2 ≠ 0 ∧ r.id = (g.add_target url e1 platform tkw).1 ∧ r.entity_id = 0
              then { r with entity_id := e2 } else r) } :=
by
  obtain ⟨t', hfind, hid⟩ := add_target_found g url platform e1 tkw
  have h2 := add_target_on_found (g.add_target url e1 platform tkw).2 url platform2 e2 tkw2 t' hfind
  rw [hid] at h2
  refine ⟨add_entity_twice g name kind kind2 { kw with city := city } { kw2 with city := city } rfl,
    ?_, ?_⟩
  · rw [h2]
  · rw [h2]

theorem compute_score_preserves (g : GraphScorer) (tid : ℕ) :
    ((g.compute_score tid).2).criteria = g.criteria ∧
    ((g.compute_score tid).2).scores = g.scores ∧
    ((g.compute_score tid).2).config = g.config := by
  unfold GraphScorer.compute_score
  dsimp only
  cases g.targets.find? (fun t => t.id == tid) with
  | none => exact ⟨rfl, rfl, rfl⟩
  | some t =>
    by_cases h : t.entity_id ≠ 0
    · simp [h]
    · simp [h]

theorem scoreAgg_congr (g1 g2 : GraphScorer) (tid : ℕ) (hc : g1.criteria = g2.criteria)
    (hs : g1.scores = g2.scores) (hf : g1.config = g2.config) :
    scoreAgg g1 tid = scoreAgg g2 tid := by
  unfold scoreAgg criteriaSorted GraphScorer.get_threshold GraphScorer.get_config
  rw [hc, hs, hf]

/-- C6: `compute_score` is idempotent — its own writebacks (the cached
`score_totals` row and the linked entity's status) are not among its inputs
(the criteria table, the threshold config entry and the score rows), so a
second call with those unchanged returns the identical aggregate: same total,
max possible, validated flag, threshold and per-criterion breakdown. -/
theorem C6_compute_score_idempotent (g : GraphScorer) (tid : ℕ) :
    ((g.compute_score tid).2.compute_score tid).1 = (g.compute_score tid).1 := by
  obtain ⟨hc, hs, hf⟩ := compute_score_preserves g tid
  have h1 : ∀ g' : GraphScorer, (g'.compute_score tid).1 = scoreAgg g' tid := fun _ => rfl
  rw [h1, h1]
  exact scoreAgg_congr _ _ tid hc hs hf

theorem find?_filter_keep {α : Type} (p q : α → Bool) (l : List α)
    (h : ∀ x ∈ l, p x = true → q x = true) :
    (l.filter q).find? p = l.find? p := by
  induction l with
  | nil => rfl
  | cons a l ih =>
    by_cases hpa : p a = true
    · rw [List.filter_cons, if_pos (h a (List.mem_cons_self a l) hpa),
        List.find?_cons_of_pos _ hpa, List.find?_cons_of_pos _ hpa]
    · have ih' := ih (fun x hx => h x (List.mem_cons_of_mem a hx))
      by_cases hqa : q a = true
      · rw [List.filter_cons, if_pos hqa, List.find?_cons_of_neg _ hpa,
          List.find?_cons_of_neg _ hpa, ih']
      · rw [List.filter_cons, if_neg hqa, List.find?_cons_of_neg _ hpa, ih']

theorem findScore_set_ne (g : GraphScorer) (tid tid' : ℕ) (cname cn ev : String)
    (met : Bool) (hne : cn ≠ cname) :
    findScore (g.set_criterion tid cname met ev).scores tid' cn
      = findScore g.scores tid' cn := by
  unfold GraphScorer.set_criterion findScore
  dsimp only
  rw [List.find?_append]
  rw [find?_filter_keep _ _ _ (fun x _ hx => by
    simp only [Bool.and_eq_true, beq_iff_eq] at hx
    simp [hx.2, hne])]
  cases hm : g.criteria.find? (fun cr => cr.name == cname) with
  | none =>
    rw [List.find?_cons_of_neg _ (by simp [Ne.symm hne]), List.find?_nil, Option.or_none]
  | some cr =>
    rw [List.find?_cons_of_neg _ (by simp [Ne.symm hne]), List.find?_nil, Option.or_none]

theorem aggRows_congr (s1 s2 : List ScoreRow) (tid : ℕ) (crs : List CriterionRow)
    (h : ∀ cr ∈ crs, findScore s1 tid cr.name = findScore s2 tid cr.name) :
    aggRows s1 tid crs = aggRows s2 tid crs := by
  induction crs with
  | nil => rfl
  | cons cr rest ih =>
    unfold aggRows
    rw [h cr (List.mem_cons_self _ _), ih (fun c hc => h c (List.mem_cons_of_mem _ hc))]

/-- C10: setting a criterion whose name is not among the configured criteria
stores a score row with `points_awarded = 0` even when `met` is true, and a
subsequent `compute_score` for that target returns exactly the aggregate it
would have returned without that row, because the aggregation iterates only
the configured criteria. -/
theorem C10_unknown_criterion (g : GraphScorer) (tid : ℕ) (cname ev : String)
    (h : cname ∉ g.criteria.map (fun cr => cr.name)) :
    findScore (g.set_criterion tid cname true ev).scores tid cname =
      some { target_id := tid, criterion_name := cname, met := 1,
             points_awarded := 0, evidence := ev } ∧
    ((g.set_criterion tid cname true ev).compute_score tid).1
      = (g.compute_score tid).1 := by
  have hnone : g.criteria.find? (fun cr => cr.name == cname) = none := by
    rw [List.find?_eq_none]
    intro cr hcr
    simp only [beq_iff_eq]
    intro hn
    exact h (hn ▸ List.mem_map_of_mem (fun c => c.name) hcr)
  constructor
  · unfold GraphScorer.set_criterion findScore
    rw [hnone]
    dsimp only
    have hfilter : ((g.scores.filter (fun s =>
        !(s.target_id == tid && s.criterion_name == cname))).find?
          (fun s => s.target_id == tid && s.criterion_name == cname)) = none := by
      rw [List.find?_eq_none]
      intro x hx
      have hxk := (List.mem_filter.mp hx).2
      simp only [Bool.not_eq_true'] at hxk
      simp [hxk]
    rw [List.find?_append, hfilter]
    rw [List.find?_cons_of_pos _ (by simp)]
    rfl
  · have e1 : ((g.set_criterion tid cname true ev).compute_score tid).1
        = scoreAgg (g.set_criterion tid cname true ev) tid := rfl
    have e2 : (g.compute_score tid).1 = scoreAgg g tid := rfl
    rw [e1, e2]
    unfold scoreAgg
    have hcrit : criteriaSorted (g.set_criterion tid cname true ev) = criteriaSorted g := rfl
    have hthr : (g.set_criterion tid cname true ev).get_threshold = g.get_threshold := rfl
    rw [hcrit, hthr]
    have hagg : aggRows (g.set_criterion tid cname true ev).scores tid (criteriaSorted g)
        = aggRows g.scores tid (criteriaSorted g) := by
      refine aggRows_congr _ _ _ _ (fun cr hcr => ?_)
      have hmem : cr ∈ g.criteria := by
        unfold criteriaSorted at hcr
        exact (List.mem_insertionSort _).mp hcr
      exact findScore_set_ne g tid tid cname cr.name ev true
        (fun hEq => h (hEq ▸ List.mem_map_of_mem (fun c => c.name) hmem))
    rw [hagg]

/-- Witness for C10: on a store configured with a single criterion
`localisation_bio`, setting the unknown criterion `ghost` with `met = true`
stores 0 points and leaves the computed aggregate unchanged. -/
theorem C10_unknown_criterion_witness :
    findScore (((GraphScorer.empty.configure_criteria
          [{ name := "localisation_bio", points := some 30 }] 60).set_criterion
        7 "ghost" true "seen on page").scores) 7 "ghost" =
      some { target_id := 7, criterion_name := "ghost", met := 1,
             points_awarded := 0, evidence := "seen on page" } ∧
    (((GraphScorer.empty.configure_criteria
          [{ name := "localisation_bio", points := some 30 }] 60).set_criterion
        7 "ghost" true "seen on page").compute_score 7).1
      = ((GraphScorer.empty.configure_criteria
          [{ name := "localisation_bio", points := some 30 }] 60).compute_score 7).1 :=
  C10_unknown_criterion
    (GraphScorer.empty.configure_criteria [{ name := "localisation_bio", points := some 30 }] 60)
    7 "ghost" "seen on page" (by decide)

theorem filter_orderedInsert_qd (p : ℚ) (a : QueryDescriptor) (l : List QueryDescriptor) :
    (List.orderedInsert qdOrder a l).filter (fun d => decide (d.priority = p)) =
      if a.priority = p then a :: l.filter (fun d => decide (d.priority = p))
      else l.filter (fun d => decide (d.priority = p)) := by
  rw [List.orderedInsert_eq_take_drop, List.filter_append]
  have hsplit : l.filter (fun d => decide (d.priority = p)) =
      (List.takeWhile (fun b => decide ¬qdOrder a b) l).filter
        (fun d => decide (d.priority = p)) ++
      (List.dropWhile (fun b => decide ¬qdOrder a b) l).filter
        (fun d => decide (d.priority = p)) := by
    rw [← List.filter_append, List.takeWhile_append_dropWhile]
  by_cases hp : a.priority = p
  · rw [if_pos hp]
    have htake : (List.takeWhile (fun b => decide ¬qdOrder a b) l).filter
        (fun d => decide (d.priority = p)) = [] := by
      rw [List.filter_eq_nil_iff]
      intro x hx
      have h1 := List.mem_takeWhile_imp hx
      simp only [decide_eq_true_eq, qdOrder] at h1
      simp only [decide_eq_true_eq]
      intro hxp
      exact h1 (by rw [hxp, hp])
    rw [htake, List.nil_append, List.filter_cons, if_pos (by simp [hp])]
    rw [hsplit, htake, List.nil_append]
  · rw [if_neg hp]
    rw [List.filter_cons, if_neg (by simp [hp]), ← List.filter_append,
      List.takeWhile_append_dropWhile]

theorem filter_insertionSort_qd (p : ℚ) (l : List QueryDescriptor) :
    (List.insertionSort qdOrder l).filter (fun d => decide (d.priority = p)) =
      l.filter (fun d => decide (d.priority = p)) := by
  induction l with
  | nil => rfl
  | cons a l ih =>
    show (List.orderedInsert qdOrder a (List.insertionSort qdOrder l)).filter _ = _
    rw [filter_orderedInsert_qd, List.filter_cons]
    by_cases hp : a.priority = p
    · rw [if_pos hp, if_pos (by simp [hp]), ih]
    · rw [if_neg hp, if_neg (by simp [hp]), ih]

theorem flattenSteps_subst (strat tier city state : String) :
    ∀ steps : List Step, ∀ d ∈ flattenSteps strat tier city state steps,
      ∃ q0, d.query = fillPlaceholders q0 city state
  | [] => by simp [flattenSteps]
  | (Step.mk sid action desc queries exp subs stype prio dep cond) :: rest => by
    intro d hd
    rw [flattenSteps] at hd
    rcases List.mem_append.mp hd with h12 | h3
    · rcases List.mem_append.mp h12 with h1 | h2
      · obtain ⟨q, _, rfl⟩ := List.mem_map.mp h1
        exact ⟨q, rfl⟩
      · exact flattenSteps_subst strat tier city state subs d h2
    · exact flattenSteps_subst strat tier city state rest d h3

theorem flattenAll_subst (city state : String) :
    ∀ strategies : List Strategy, ∀ d ∈ flattenAll strategies city state,
      ∃ q0, d.query = fillPlaceholders q0 city state
  | [] => by simp [flattenAll]
  | s :: rest => by
    intro d hd
    rw [flattenAll] at hd
    rcases List.mem_append.mp hd with h1 | h2
    · exact flattenSteps_subst s.name s.tier city state s.steps d h1
    · exact flattenAll_subst city state rest d h2

/-- C7: `flatten_queries` returns a list that is (a) sorted by descending
step priority, (b) a permutation of the depth-first traversal of every
strategy's step tree, (c) stable — for each priority value, the descriptors
with that priority appear exactly in traversal order, (d) built of queries to
which placeholder substitution has been applied; and (e) on a strategy with
step priorities [10, 90, 50] it returns the queries in order [90, 50, 10]
with the substitution applied to each. -/
theorem C7_flatten_queries (strategies : List Strategy) (city state : String) :
    List.Sorted qdOrder (flatten_queries strategies city state) ∧
    (flatten_queries strategies city state).Perm (flattenAll strategies city state) ∧
    (∀ p : ℚ, (flatten_queries strategies city state).filter (fun d => decide (d.priority = p))
        = (flattenAll strategies city state).filter (fun d => decide (d.priority = p))) ∧
    (∀ d ∈ flatten_queries strategies city state,
        ∃ q0, d.query = fillPlaceholders q0 city state) ∧
    flatten_queries [{ name := "S", tier := "direct", steps := [
        Step.mk "s1" "a1" "" ["qa"] "" [] "press" 10 "" "always",
        Step.mk "s2" "a2" "" ["qb"] "" [] "university" 90 "" "always",
        Step.mk "s3" "a3" "" ["qc"] "" [] "social" 50 "" "always"] }] city state
      = [{ query := fillPlaceholders "qb" city state, strategy := "S", tier := "direct",
           step_id := "s2", step_action := "a2", source_type := "university",
           priority := 90, condition := "always" },
         { query := fillPlaceholders "qc" city state, strategy := "S", tier := "direct",
           step_id := "s3", step_action := "a3", source_type := "social",
           priority := 50, condition := "always" },
         { query := fillPlaceholders "qa" city state, strategy := "S", tier := "direct",
           step_id := "s1", step_action := "a1", source_type := "press",
           priority := 10, condition := "always" }] := by
  refine ⟨List.sorted_insertionSort qdOrder _, List.perm_insertionSort qdOrder _,
    fun p => filter_insertionSort_qd p _, fun d hd => ?_, ?_⟩
  · exact flattenAll_subst city state strategies d ((List.mem_insertionSort qdOrder).mp hd)
  · norm_num [flatten_queries, flattenAll, flattenSteps, List.insertionSort,
      List.orderedInsert, qdOrder]

/-- Witness for C7: the top (priority 90) descriptor of the example strategy
is a member of the flattened list and its query is a substitution image. -/
theorem C7_flatten_queries_witness :
    ∃ q0, ({ query := fillPlaceholders "qb" "Austin" "Texas", strategy := "S", tier := "direct",
             step_id := "s2", step_action := "a2", source_type := "university",
             priority := 90, condition := "always" } : QueryDescriptor).query
      = fillPlaceholders q0 "Austin" "Texas" := by
  have h := C7_flatten_queries [{ name := "S", tier := "direct", steps := [
    Step.mk "s1" "a1" "" ["qa"] "" [] "press" 10 "" "always",
    Step.mk "s2" "a2" "" ["qb"] "" [] "university" 90 "" "always",
    Step.mk "s3" "a3" "" ["qc"] "" [] "social" 50 "" "always"] }] "Austin" "Texas"
  exact h.2.2.2.1 _ (by rw [h.2.2.2.2]; exact List.mem_cons_self _ _)

theorem dedupByUrl_cons (seen : List String) (r : SearchResult) (rest : List SearchResult) :
    dedupByUrl seen (r :: rest) =
      if r.url ∈ seen then dedupByUrl seen rest
      else r :: dedupByUrl (r.url :: seen) rest := rfl

theorem take_isEmpty_false (n : ℕ) (l : List ScoredResult) (hn : n ≠ 0) (hl : l ≠ []) :
    (l.take n).isEmpty = false := by
  cases l with
  | nil => exact absurd rfl hl
  | cons a as =>
    cases n with
    | zero => exact absurd rfl hn
    | succ m => rfl

/-- C5 counterexample: with one wave remaining (wave 1 of 3), a wave whose
query-generation phase yields zero queries does **not** take the
escalate-or-fail path — it marks the category failed immediately with reason
"No queries" and never invokes the escalation analysis. -/
theorem C5_counterexample :
    (processCategoryWave envNoQueries GraphScorer.empty "Austin" "Texas" "Cinema" 1).status
      = "failed" ∧
    (processCategoryWave envNoQueries GraphScorer.empty "Austin" "Texas" "Cinema" 1).failure_reason
      = "No queries" ∧
    (processCategoryWave envNoQueries GraphScorer.empty "Austin" "Texas" "Cinema" 1).escalated
      = false ∧
    1 < MAX_WAVES :=
  ⟨rfl, rfl, rfl, by decide⟩

/-- C5 (amended): in an auto-run wave (checkpoints answering "continue"),
every phase after query generation that yields zero items short-circuits the
remaining phases through the same escalate-or-fail path — escalate (invoke
the failure analysis and keep the category in progress) when waves remain,
otherwise mark the category failed; in particular a wave with 0 unique search
results reports a cost-engine miss on the `direct` source with the query
count as cost and proceeds to escalate-or-fail without attempting triage or
fetch. However, a wave whose query-generation phase yields zero queries marks
the category failed immediately with reason "No queries" without escalating,
even when waves remain (see `C5_counterexample`). -/
theorem C5_wave (env : WaveEnv) (g : GraphScorer) (city sn cl : String) (wave : ℕ)
    (hcp1 : env.cp1 = "continue") (hcp2 : env.cp2 = "continue") :
    (env.genQueries = [] →
      (processCategoryWave env g city sn cl wave).status = "failed" ∧
      (processCategoryWave env g city sn cl wave).failure_reason = "No queries" ∧
      (processCategoryWave env g city sn cl wave).escalated = false ∧
      (processCategoryWave env g city sn cl wave).costCalls = [] ∧
      (processCategoryWave env g city sn cl wave).triageRan = false) ∧
    (env.genQueries ≠ [] → env.searchResults = [] →
      (processCategoryWave env g city sn cl wave).costCalls
          = [⟨"direct", 0, (env.genQueries.length : ℚ), 0, ""⟩] ∧
      (processCategoryWave env g city sn cl wave).triageRan = false ∧
      (processCategoryWave env g city sn cl wave).fetchRan = false ∧
      (MAX_WAVES ≤ wave →
        (processCategoryWave env g city sn cl wave).status = "failed" ∧
        (processCategoryWave env g city sn cl wave).escalated = false) ∧
      (wave < MAX_WAVES →
        (processCategoryWave env g city sn cl wave).status = "in_progress" ∧
        (processCategoryWave env g city sn cl wave).escalated = true)) ∧
    (env.genQueries ≠ [] → env.searchResults ≠ [] →
      env.triage (dedupByUrl [] env.searchResults) = [] →
      (processCategoryWave env g city sn cl wave).triageRan = true ∧
      (processCategoryWave env g city sn cl wave).fetchRan = false ∧
      (MAX_WAVES ≤ wave → (processCategoryWave env g city sn cl wave).status = "failed") ∧
      (wave < MAX_WAVES →
        (processCategoryWave env g city sn cl wave).status = "in_progress" ∧
        (processCategoryWave env g city sn cl wave).escalated = true)) ∧
    (env.genQueries ≠ [] → env.searchResults ≠ [] →
      env.triage (dedupByUrl [] env.searchResults) ≠ [] →
      (fetchLoop env ((env.triage (dedupByUrl [] env.searchResults)).take
        MAX_PAGES_TO_FETCH)).1 = [] →
      (processCategoryWave env g city sn cl wave).triageRan = true ∧
      (processCategoryWave env g city sn cl wave).fetchRan = true ∧
      (processCategoryWave env g city sn cl wave).assembleRan = false ∧
      (MAX_WAVES ≤ wave → (processCategoryWave env g city sn cl wave).status = "failed") ∧
      (wave < MAX_WAVES →
        (processCategoryWave env g city sn cl wave).status = "in_progress" ∧
        (processCategoryWave env g city sn cl wave).escalated = true)) ∧
    (env.genQueries ≠ [] → env.searchResults ≠ [] →
      env.triage (dedupByUrl [] env.searchResults) ≠ [] →
      (fetchLoop env ((env.triage (dedupByUrl [] env.searchResults)).take
        MAX_PAGES_TO_FETCH)).1 ≠ [] →
      env.assemble (fetchLoop env ((env.triage (dedupByUrl [] env.searchResults)).take
        MAX_PAGES_TO_FETCH)).1 = [] →
      (processCategoryWave env g city sn cl wave).triageRan = true ∧
      (processCategoryWave env g city sn cl wave).fetchRan = true ∧
      (processCategoryWave env g city sn cl wave).assembleRan = true ∧
      (MAX_WAVES ≤ wave → (processCategoryWave env g city sn cl wave).status = "failed") ∧
      (wave < MAX_WAVES →
        (processCategoryWave env g city sn cl wave).status = "in_progress" ∧
        (processCategoryWave env g city sn cl wave).escalated = true)) := by
  refine ⟨?_, ?_, ?_, ?_, ?_⟩
  · intro hq
    unfold processCategoryWave
    simp [hq]
  · intro hq hs
    have hqE : env.genQueries.isEmpty = false := by
      cases h : env.genQueries with
      | nil => exact absurd h hq
      | cons a l => rfl
    refine ⟨?_, ?_, ?_, fun hw => ?_, fun hw => ?_⟩
    · simp [processCategoryWave, escalateOutcome, hcp1, hqE, hs, dedupByUrl]
    · simp [processCategoryWave, escalateOutcome, hcp1, hqE, hs, dedupByUrl]
    · simp [processCategoryWave, escalateOutcome, hcp1, hqE, hs, dedupByUrl]
    · simp [processCategoryWave, escalateOutcome, hcp1, hqE, hs, dedupByUrl, hw]
    · simp [processCategoryWave, escalateOutcome, hcp1, hqE, hs, dedupByUrl,
        Nat.not_le.mpr hw]
  · intro hq hs htr
    have hqE : env.genQueries.isEmpty = false := by
      cases h : env.genQueries with
      | nil => exact absurd h hq
      | cons a l => rfl
    obtain ⟨r0, rs, hse⟩ := List.exists_cons_of_ne_nil hs
    rw [hse] at htr
    simp only [dedupByUrl_cons, List.not_mem_nil, if_false] at htr
    refine ⟨?_, ?_, fun hw => ?_, fun hw => ?_⟩
    · simp [processCategoryWave, escalateOutcome, hcp1, hcp2, hqE, hse, dedupByUrl_cons, htr]
    · simp [processCategoryWave, escalateOutcome, hcp1, hcp2, hqE, hse, dedupByUrl_cons, htr]
    · simp [processCategoryWave, escalateOutcome, hcp1, hcp2, hqE, hse, dedupByUrl_cons,
        htr, hw]
    · simp [processCategoryWave, escalateOutcome, hcp1, hcp2, hqE, hse, dedupByUrl_cons,
        htr, Nat.not_le.mpr hw]
  · intro hq hs htr hf
    have hqE : env.genQueries.isEmpty = false := by
      cases h : env.genQueries with
      | nil => exact absurd h hq
      | cons a l => rfl
    obtain ⟨r0, rs, hse⟩ := List.exists_cons_of_ne_nil hs
    rw [hse] at htr hf
    simp only [dedupByUrl_cons, List.not_mem_nil, if_false] at htr hf
    have hMP : ¬(MAX_PAGES_TO_FETCH = 0) := by decide
    refine ⟨?_, ?_, ?_, fun hw => ?_, fun hw => ?_⟩
    · simp [processCategoryWave, escalateOutcome, hMP, hcp1, hcp2, hqE, hse,
        dedupByUrl_cons, htr, hf]
    · simp [processCategoryWave, escalateOutcome, hMP, hcp1, hcp2, hqE, hse,
        dedupByUrl_cons, htr, hf]
    · simp [processCategoryWave, escalateOutcome, hMP, hcp1, hcp2, hqE, hse,
        dedupByUrl_cons, htr, hf]
    · simp [processCategoryWave, escalateOutcome, hMP, hcp1, hcp2, hqE, hse,
        dedupByUrl_cons, htr, hf, hw]
    · simp [processCategoryWave, escalateOutcome, hMP, hcp1, hcp2, hqE, hse,
        dedupByUrl_cons, htr, hf, Nat.not_le.mpr hw]
  · intro hq hs htr hf ha
    have hqE : env.genQueries.isEmpty = false := by
      cases h : env.genQueries with
      | nil => exact absurd h hq
      | cons a l => rfl
    obtain ⟨r0, rs, hse⟩ := List.exists_cons_of_ne_nil hs
    rw [hse] at htr hf ha
    simp only [dedupByUrl_cons, List.not_mem_nil, if_false] at htr hf ha
    have hMP : ¬(MAX_PAGES_TO_FETCH = 0) := by decide
    refine ⟨?_, ?_, ?_, fun hw => ?_, fun hw => ?_⟩
    · simp [processCategoryWave, escalateOutcome, hMP, hcp1, hcp2, hqE, hse,
        dedupByUrl_cons, htr, hf, ha]
    · simp [processCategoryWave, escalateOutcome, hMP, hcp1, hcp2, hqE, hse,
        dedupByUrl_cons, htr, hf, ha]
    · simp [processCategoryWave, escalateOutcome, hMP, hcp1, hcp2, hqE, hse,
        dedupByUrl_cons, htr, hf, ha]
    · simp [processCategoryWave, escalateOutcome, hMP, hcp1, hcp2, hqE, hse,
        dedupByUrl_cons, htr, hf, ha, hw]
    · simp [processCategoryWave, escalateOutcome, hMP, hcp1, hcp2, hqE, hse,
        dedupByUrl_cons, htr, hf, ha, Nat.not_le.mpr hw]

/-- Witness for C5 at a concrete wave: one query, zero search results, wave 1
of 3 — the wave reports a cost-engine miss on `direct`, skips triage, and
escalates (category stays in progress). -/
theorem C5_wave_witness :
    (processCategoryWave envNoResults GraphScorer.empty "Austin" "Texas" "Cinema" 1).costCalls
        = [⟨"direct", 0, (envNoResults.genQueries.length : ℚ), 0, ""⟩] ∧
    (processCategoryWave envNoResults GraphScorer.empty "Austin" "Texas" "Cinema" 1).triageRan
        = false ∧
    (processCategoryWave envNoResults GraphScorer.empty "Austin" "Texas" "Cinema" 1).escalated
        = true := by
  have h := C5_wave envNoResults GraphScorer.empty "Austin" "Texas" "Cinema" 1 rfl rfl
  have h2 := h.2.1 (by decide) rfl
  exact ⟨h2.1, h2.2.1, (h2.2.2.2.2 (by decide)).2⟩
